import Mathlib

/-!
Verification of the SiK firmware serial/interleaver core
(src/Firmware/radio/interleave.c and src/Firmware/radio/serial.c).

Shallow embedding conventions:
- machine bytes are `Nat` values in `[0, 256)`; byte arrays are functions
  `Nat → Nat` (only indices below the buffer capacity are ever used);
- the C globals of serial.c are gathered into a `SerialState` structure;
- interrupt-driven hardware effects (UART registers, LEDs, EEPROM, radio
  control, device reset) are recorded as explicit events, since the
  corresponding code is outside the two files under verification;
- fallible operations return their success flag explicitly.
-/

/- ========================  interleave.c  ======================== -/

/-- The compiled-in stride table `steps[86]` of interleave.c (lines 59-146),
one entry per payload-length class of 3 bytes from 0 to 255. -/
def steps : List Nat :=
  [0, 7, 9, 28, 13, 68, 17, 20, 57, 47, 21, 23, 104, 25, 25, 233, 31, 110,
   32, 60, 31, 107, 281, 66, 33, 159, 146, 228, 188, 111, 37, 354, 82, 118,
   239, 41, 253, 186, 191, 196, 143, 402, 95, 48, 45, 93, 47, 588, 400, 613,
   49, 99, 49, 52, 168, 255, 511, 157, 241, 294, 299, 168, 905, 55, 447, 179,
   306, 221, 176, 399, 57, 293, 255, 410, 430, 620, 172, 178, 436, 305, 61,
   252, 1047, 435, 1040, 394]

/-- The permuted index computed by both interleave macros:
`((bit)*steps[n/3])%n` (note: the C code reduces modulo `n`, the byte
length, not modulo the bit length `8*n`). -/
def interleave_index (n bit : Nat) : Nat :=
  bit * steps.getD (n / 3) 0 % n

/-- `interleave_getbit(n,in,bit)` of interleave.c line 150:
`((in[(((bit)*steps[n/3])%n)>>3]>>((((bit)*steps[n/3])%n)&7))?1:0)`.
Note the C expression tests whether the shifted byte is nonzero
(`?1:0`), it does not mask the low bit. -/
def interleave_getbit (n : Nat) (buf : Nat → Nat) (bit : Nat) : Nat :=
  if buf (interleave_index n bit / 8) >>> (interleave_index n bit % 8) ≠ 0
  then 1 else 0

/-- `interleave_setbit(n,in,bit,value)` of interleave.c lines 152-156,
acting on byte `permuted / 8` at `k = permuted % 8`.  The clear path is
`in[...] &= ~1<<k`, which by C precedence is `(~1) << k` — as a byte,
`0xFE << k` — a mask that clears bits 0 through `k`, not only bit `k`.
The set path `in[...] |= 1<<k` sets only bit `k`. -/
def interleave_setbit (n : Nat) (buf : Nat → Nat) (bit v : Nat) : Nat → Nat :=
  fun j =>
    if j = interleave_index n bit / 8 then
      if v = 0 then
        buf j &&& ((254 <<< (interleave_index n bit % 8)) &&& 255)
      else
        buf j ||| (1 <<< (interleave_index n bit % 8))
    else buf j

/-- `interleave_getbyte` of interleave.c lines 158-171: ORs the eight
bit reads for bits `8*index .. 8*index+7`. -/
def interleave_getbyte (n : Nat) (buf : Nat → Nat) (index : Nat) : Nat :=
  interleave_getbit n buf (index * 8 + 0) |||
  interleave_getbit n buf (index * 8 + 1) <<< 1 |||
  interleave_getbit n buf (index * 8 + 2) <<< 2 |||
  interleave_getbit n buf (index * 8 + 3) <<< 3 |||
  interleave_getbit n buf (index * 8 + 4) <<< 4 |||
  interleave_getbit n buf (index * 8 + 5) <<< 5 |||
  interleave_getbit n buf (index * 8 + 6) <<< 6 |||
  interleave_getbit n buf (index * 8 + 7) <<< 7

/-- `interleave_setbyte` of interleave.c lines 173-184: eight successive
bit writes of the bits of `value`. -/
def interleave_setbyte (n : Nat) (buf : Nat → Nat) (index value : Nat) : Nat → Nat :=
  let b0 := interleave_setbit n buf (index * 8 + 0) (value >>> 0 &&& 1)
  let b1 := interleave_setbit n b0 (index * 8 + 1) (value >>> 1 &&& 1)
  let b2 := interleave_setbit n b1 (index * 8 + 2) (value >>> 2 &&& 1)
  let b3 := interleave_setbit n b2 (index * 8 + 3) (value >>> 3 &&& 1)
  let b4 := interleave_setbit n b3 (index * 8 + 4) (value >>> 4 &&& 1)
  let b5 := interleave_setbit n b4 (index * 8 + 5) (value >>> 5 &&& 1)
  let b6 := interleave_setbit n b5 (index * 8 + 6) (value >>> 6 &&& 1)
  interleave_setbit n b6 (index * 8 + 7) (value >>> 7 &&& 1)

/-- Modelled from the spec (section 4.4), for comparison with the code:
`get_bit(n, buffer, bit_index)` is said to compute
`permuted_index = (bit_index * stride[n/3]) mod (8n)` and then read
exactly bit `permuted_index mod 8` of byte `permuted_index / 8`. -/
def spec_interleave_getbit (n : Nat) (buf : Nat → Nat) (bit : Nat) : Nat :=
  buf (bit * steps.getD (n / 3) 0 % (8 * n) / 8) >>>
    (bit * steps.getD (n / 3) 0 % (8 * n) % 8) &&& 1

/- ========================  serial.c : data model  ======================== -/

/-- `RX_BUFF_MAX` (serial.c line 59). -/
def RX_BUFF_MAX : Nat := 256

/-- `TX_BUFF_MAX` (serial.c line 60). -/
def TX_BUFF_MAX : Nat := 512

/-- `BUF_NEXT_INSERT`/`BUF_NEXT_REMOVE` (serial.c lines 80-81):
`((idx + 1) == cap) ? 0 : (idx + 1)`. -/
def BUF_NEXT (cap idx : Nat) : Nat :=
  if idx + 1 = cap then 0 else idx + 1

/-- `BUF_FULL` (serial.c line 82): the next insert position equals the
remove position. -/
def BUF_FULL (cap ins rem : Nat) : Bool :=
  BUF_NEXT cap ins == rem

/-- `BUF_EMPTY` (serial.c line 84): insert equals remove. -/
def BUF_EMPTY (ins rem : Nat) : Bool :=
  ins == rem

/-- `BUF_USED` (serial.c line 86):
`(ins >= rem) ? (ins - rem) : (cap - rem) + ins`. -/
def BUF_USED (cap ins rem : Nat) : Nat :=
  if rem ≤ ins then ins - rem else cap - rem + ins

/-- `BUF_FREE` (serial.c line 87):
`(ins >= rem) ? (cap + rem - ins) : rem - ins`. -/
def BUF_FREE (cap ins rem : Nat) : Nat :=
  if rem ≤ ins then cap + rem - ins else rem - ins

/-- External effects performed by the interrupt handler code that lives
outside serial.c/interleave.c (radio control, EEPROM and pin I/O,
formatted prints, hardware resets).  The model records them as events. -/
inductive ExtAction where
  /-- `radio_set_transmit_power(p)` -/
  | radioSetPower (p : Nat)
  /-- a `printfl(...)` formatted print -/
  | printMessage
  /-- flash-signature erase plus software reset (the `!Cup!B` path) -/
  | bootloader
  /-- the `#if PIN_MAX > 0` pin/I2C/EEPROM subcommand dispatch for a
  lowercase letter or digit `c`; the dispatch body is configuration
  dependent and external to this model (under that configuration the
  `g`, `w` and `j` subcommands additionally drain bytes from the RX
  buffer) -/
  | pinsOrEeprom (c : Nat)
  /-- the `E` command EEPROM dump loop -/
  | eepromDump
  /-- the `I` command EEPROM compat dump loop -/
  | eepromDumpCompat
  /-- `flash_report_summary()` -/
  | flashReport
  /-- `reinit()` -/
  | reinitialize
  /-- `RSTSRC |= (1 << 4)` software reset -/
  | softReset
  /-- `param_default()` -/
  | paramDefault
deriving Repr, DecidableEq

/-- The file-scope mutable state of serial.c.  Byte buffers are modelled
as functions from index to byte value; only indices below the capacity
are used.  `led_bootloader` models the LED_BOOTLOADER output pin. -/
structure SerialState where
  rx_buf : Nat → Nat
  tx_buf : Nat → Nat
  rx_insert : Nat
  rx_remove : Nat
  tx_insert : Nat
  tx_remove : Nat
  tx_idle : Bool
  last_was_bang : Bool
  tx_buffered_data : Bool
  rts_count : Nat
  uboot_counter : Nat
  last_byte : Nat
  uboot_silence_mode : Bool
  uboot_silence_counter : Nat
  serial_rx_overflow : Nat
  serial_tx_overflow : Nat
  heartbeat_requested : Bool
  eeprom_param_request : Bool
  led_bootloader : Bool

/-- Observable outcome of feeding bytes to the receive interrupt path:
`queued` is the list of data bytes inserted into the RX ring buffer,
`emitted` the bytes handed to `_serial_write` on the outbound stream,
`flushes` the number of times the flush signal `tx_buffered_data` was
raised by the doubled escape, and `actions` the external commands
dispatched. -/
structure RxEffects where
  queued : List Nat := []
  emitted : List Nat := []
  flushes : Nat := 0
  actions : List ExtAction := []
deriving Repr, DecidableEq

/-- Sequential composition of two effect records. -/
def RxEffects.append (e1 e2 : RxEffects) : RxEffects :=
  ⟨e1.queued ++ e2.queued, e1.emitted ++ e2.emitted,
   e1.flushes + e2.flushes, e1.actions ++ e2.actions⟩

/- ====================  serial.c : operations  ==================== -/

/-- `_serial_write(c)` (serial.c lines 566-585): if the TX buffer is not
full, insert the byte and restart an idle transmitter
(`serial_restart`, modelled as clearing `tx_idle`; the `TI0` interrupt
kick and the `SERIAL_RTS` feature-gated early return act on hardware
registers outside this model); otherwise bump the saturating TX
overflow counter. -/
def serial_write_internal (s : SerialState) (c : Nat) : SerialState :=
  if ¬ (BUF_FULL TX_BUFF_MAX s.tx_insert s.tx_remove = true) then
    let s1 := { s with
      tx_buf := fun j => if j = s.tx_insert then c else s.tx_buf j,
      tx_insert := BUF_NEXT TX_BUFF_MAX s.tx_insert }
    if s1.tx_idle = true then { s1 with tx_idle := false } else s1
  else if s.serial_tx_overflow ≠ 0xFFFF then
    { s with serial_tx_overflow := s.serial_tx_overflow + 1 }
  else s

/-- `putchar_r(c)` (serial.c lines 794-799): CR before LF, then the byte
itself, each through `_serial_write`.  Also returns the list of bytes
handed to `_serial_write`. -/
def putchar_r (s : SerialState) (c : Nat) : SerialState × List Nat :=
  if c = 10 then
    (serial_write_internal (serial_write_internal s 13) c, [13, c])
  else
    (serial_write_internal s c, [c])

/-- `serial_init(speed)` (serial.c lines 522-552): resets the four FIFO
indices and marks the transmitter idle.  The remaining statements
program timer, UART and CTS hardware registers
(`serial_device_set_speed` and friends) and are outside this model;
no other file-scope variable of serial.c is touched. -/
def serial_init (s : SerialState) (_speed : Nat) : SerialState :=
  { s with
    rx_insert := 0
    rx_remove := 0
    tx_insert := 0
    tx_remove := 0
    tx_idle := true }

/-- `serial_write_space()` (serial.c lines 639-647): `BUF_FREE(tx)`. -/
def serial_write_space (s : SerialState) : Nat :=
  BUF_FREE TX_BUFF_MAX s.tx_insert s.tx_remove

/-- `serial_write(c)` (serial.c lines 554-564): refuse while uboot
silence mode is active, refuse when no space is reported, otherwise
enqueue through `_serial_write`. -/
def serial_write (s : SerialState) (c : Nat) : Bool × SerialState :=
  if s.uboot_silence_mode = true then (false, s)
  else if serial_write_space s < 1 then (false, s)
  else (true, serial_write_internal s c)

/-- `serial_read_available()` (serial.c lines 768-776): `BUF_USED(rx)`. -/
def serial_read_available (s : SerialState) : Nat :=
  BUF_USED RX_BUFF_MAX s.rx_insert s.rx_remove

/-- `serial_read()` (serial.c lines 663-685): pop the oldest RX byte, or
return 0 when the buffer is empty (the `SERIAL_CTS` block is feature
gated and acts on a hardware pin). -/
def serial_read (s : SerialState) : Nat × SerialState :=
  if ¬ (BUF_EMPTY s.rx_insert s.rx_remove = true) then
    (s.rx_buf s.rx_remove, { s with rx_remove := BUF_NEXT RX_BUFF_MAX s.rx_remove })
  else
    (0, s)

/-- `serial_write_buf(buf, count)` (serial.c lines 589-637).  `count` is
`data.length` (a `uint8_t` in C, hence at most 255 at every call
site).  Truncates to the reported free space, bumping the saturating
TX overflow counter once if anything was dropped, then copies in up to
two `memcpy` chunks around the wrap point and finally kicks an idle
transmitter. -/
def serial_write_buf (s : SerialState) (data : List Nat) : SerialState :=
  if data.length = 0 then s
  else
    let space := serial_write_space s
    let count := if data.length > space then space else data.length
    let ovf := if data.length > space then
        (if s.serial_tx_overflow ≠ 0xFFFF then s.serial_tx_overflow + 1
         else s.serial_tx_overflow)
      else s.serial_tx_overflow
    let n1 := if count > TX_BUFF_MAX - s.tx_insert then TX_BUFF_MAX - s.tx_insert
      else count
    let buf1 : Nat → Nat := fun j =>
      if s.tx_insert ≤ j ∧ j < s.tx_insert + n1 then data.getD (j - s.tx_insert) 0
      else s.tx_buf j
    let ins1 := if s.tx_insert + n1 ≥ TX_BUFF_MAX then s.tx_insert + n1 - TX_BUFF_MAX
      else s.tx_insert + n1
    let rest := count - n1
    let buf2 : Nat → Nat :=
      if rest > 0 then (fun j => if j < rest then data.getD (n1 + j) 0 else buf1 j)
      else buf1
    let ins2 := if rest > 0 then rest else ins1
    -- the final `if (tx_idle) serial_restart();` clears the idle flag
    { s with tx_buf := buf2, tx_insert := ins2, serial_tx_overflow := ovf,
             tx_idle := if s.tx_idle = true then false else s.tx_idle }

/-- `serial_read_buf(buf, count)` (serial.c lines 726-766): fail without
consuming anything when fewer than `count` bytes are available,
otherwise copy out `count` bytes in up to two chunks around the wrap
point and advance the remove index.  Returns the success flag and the
bytes copied out. -/
def serial_read_buf (s : SerialState) (count : Nat) : Bool × List Nat × SerialState :=
  if count > serial_read_available s then (false, [], s)
  else
    let n1 := if count > RX_BUFF_MAX - s.rx_remove then RX_BUFF_MAX - s.rx_remove
      else count
    let out1 := (List.range n1).map (fun k => s.rx_buf (s.rx_remove + k))
    let rem1 := if s.rx_remove + n1 ≥ RX_BUFF_MAX then s.rx_remove + n1 - RX_BUFF_MAX
      else s.rx_remove + n1
    let rest := count - n1
    if rest > 0 then
      (true, out1 ++ (List.range rest).map (fun k => s.rx_buf k),
       { s with rx_remove := rest })
    else
      (true, out1, { s with rx_remove := rem1 })

/-- The RX data-queueing pattern of `serial_interrupt` (serial.c lines
450-456 and 463-469): insert into the RX ring if not full, otherwise
bump the saturating RX overflow counter.  Returns the bytes queued. -/
def rx_queue_byte (s : SerialState) (c : Nat) : SerialState × List Nat :=
  if ¬ (BUF_FULL RX_BUFF_MAX s.rx_insert s.rx_remove = true) then
    ({ s with
        rx_buf := fun j => if j = s.rx_insert then c else s.rx_buf j,
        rx_insert := BUF_NEXT RX_BUFF_MAX s.rx_insert }, [c])
  else if s.serial_rx_overflow ≠ 0xFFFF then
    ({ s with serial_rx_overflow := s.serial_rx_overflow + 1 }, [])
  else (s, [])

/-- The uboot boot-banner detector at the head of the receive interrupt
(serial.c lines 143-173): a byte extending the alternating
`0x86`/`0x98` pattern bumps `uboot_counter`, anything else resets it;
at 80 the LED turns on, a 20-second silence countdown starts, the
counter clears and silence mode engages.  `last_byte` then records the
byte. -/
def banner_update (s : SerialState) (c : Nat) : SerialState :=
  let s1 :=
    if (s.last_byte = 0x86 ∧ c = 0x98) ∨ (s.last_byte = 0x98 ∧ c = 0x86) then
      { s with uboot_counter := s.uboot_counter + 1 }
    else { s with uboot_counter := 0 }
  let s2 :=
    if s1.uboot_counter ≥ 80 then
      { s1 with
        led_bootloader := true
        uboot_silence_counter := 20 * 100
        uboot_counter := 0
        uboot_silence_mode := true }
    else s1
  { s2 with last_byte := c }

/-- The `!Cup!B` confirmation of the `B` command (serial.c lines
217-240): conditionally pop two bytes checking them against `u` and
`p` (with C short-circuit evaluation), require the RX buffer empty
afterwards; on full confirmation the device erases its flash signature
and resets. -/
def bang_command_B (s : SerialState) : SerialState × RxEffects :=
  let r1 := if BUF_EMPTY s.rx_insert s.rx_remove = true then (false, s)
    else ((serial_read s).1 == 117, (serial_read s).2)
  let r2 := if BUF_EMPTY r1.2.rx_insert r1.2.rx_remove = true then (false, r1.2)
    else ((serial_read r1.2).1 == 112, (serial_read r1.2).2)
  let confirmed := r1.1 && r2.1 && BUF_EMPTY r2.2.rx_insert r2.2.rx_remove
  let s3 := { r2.2 with last_was_bang := false }
  if confirmed = true then (s3, { actions := [ExtAction.bootloader] })
  else (s3, {})

/-- The escape / command dispatch chain of `serial_interrupt` (serial.c
lines 186-470), taken in source order with `at_mode_active` false.
The `at_plus_detector(c)` call observes every byte but mutates only AT
subsystem state outside this model.  The trailing feature-gated
`SERIAL_CTS` threshold block acts on a hardware pin. -/
def escape_step (s : SerialState) (c : Nat) : SerialState × RxEffects :=
  if c = 33 then
    -- a genuine escape cannot arrive at the uboot rate: end silence mode
    let s1 := if s.uboot_silence_mode = true then
        { s with uboot_silence_mode := false, uboot_silence_counter := 0,
                 led_bootloader := false }
      else s
    if s1.last_was_bang = true then
      ({ s1 with tx_buffered_data := true, last_was_bang := false },
       { flushes := 1 })
    else ({ s1 with last_was_bang := true }, {})
  else if c = 77 ∧ s.last_was_bang = true then
    ({ s with last_was_bang := false }, { actions := [ExtAction.radioSetPower 30] })
  else if c = 72 ∧ s.last_was_bang = true then
    ({ s with last_was_bang := false }, { actions := [ExtAction.radioSetPower 24] })
  else if c = 76 ∧ s.last_was_bang = true then
    ({ s with last_was_bang := false }, { actions := [ExtAction.radioSetPower 0] })
  else if c = 80 ∧ s.last_was_bang = true then
    ({ s with last_was_bang := false }, { actions := [ExtAction.printMessage] })
  else if c = 66 ∧ s.last_was_bang = true then
    bang_command_B s
  else if c = 67 ∧ s.last_was_bang = true then
    -- drain the RX ring with repeated BUF_REMOVE until empty
    ({ s with last_was_bang := false, rx_remove := s.rx_insert }, {})
  else if ((97 ≤ c ∧ c ≤ 122) ∨ (48 ≤ c ∧ c ≤ 57)) ∧ s.last_was_bang = true then
    ({ s with last_was_bang := false }, { actions := [ExtAction.pinsOrEeprom c] })
  else if c = 68 ∧ s.last_was_bang = true then
    ({ s with eeprom_param_request := true, last_was_bang := false }, {})
  else if c = 69 ∧ s.last_was_bang = true then
    ({ s with last_was_bang := false }, { actions := [ExtAction.eepromDump] })
  else if c = 73 ∧ s.last_was_bang = true then
    ({ s with last_was_bang := false }, { actions := [ExtAction.eepromDumpCompat] })
  else if c = 70 ∧ s.last_was_bang = true then
    ({ s with last_was_bang := false }, { actions := [ExtAction.flashReport] })
  else if c = 48 ∧ s.last_was_bang = true then
    -- unreachable: digits are consumed by the branch above (kept as written)
    ({ s with last_was_bang := false, rx_insert := 0, rx_remove := 0 }, {})
  else if c = 89 ∧ s.last_was_bang = true then
    ({ s with last_was_bang := false, tx_buffered_data := false,
              heartbeat_requested := false },
     { actions := [ExtAction.reinitialize, ExtAction.printMessage] })
  else if c = 90 ∧ s.last_was_bang = true then
    ({ s with last_was_bang := false },
     { actions := [ExtAction.printMessage, ExtAction.softReset] })
  else if c = 82 ∧ s.last_was_bang = true then
    ({ s with last_was_bang := false }, { actions := [ExtAction.paramDefault] })
  else if c = 86 ∧ s.last_was_bang = true then
    let r := putchar_r { s with last_was_bang := false } 49
    (r.1, { emitted := r.2 })
  else if c = 46 ∧ s.last_was_bang = true then
    let r := rx_queue_byte { s with last_was_bang := false } 33
    (r.1, { queued := r.2 })
  else if s.last_was_bang = true then
    let r := putchar_r { s with last_was_bang := false } 69
    (r.1, { emitted := r.2 })
  else
    let r := rx_queue_byte s c
    (r.1, { queued := r.2 })

/-- One received byte through the RX half of `serial_interrupt`
(serial.c lines 132-477), with `at_mode_active` false: the banner
detector runs first, then the escape / command chain. -/
def serial_rx_byte (s : SerialState) (c : Nat) : SerialState × RxEffects :=
  escape_step (banner_update s c) c

/-- Feeding a byte sequence to the receive interrupt one byte at a time,
accumulating the observable effects. -/
def serial_rx_feed : SerialState → List Nat → SerialState × RxEffects
  | s, [] => (s, {})
  | s, c :: cs =>
    let r1 := serial_rx_byte s c
    let r2 := serial_rx_feed r1.1 cs
    (r2.1, r1.2.append r2.2)

/-- `altList k a b` is the length-`k` alternating byte sequence
`[a, b, a, b, ...]`. -/
def altList : Nat → Nat → Nat → List Nat
  | 0, _, _ => []
  | k + 1, a, b => a :: altList k b a

/- ====================  common concrete state  ==================== -/

/-- The power-on values of the serial.c globals (all zero / idle),
used as a base point for concrete witnesses. -/
def zeroSerialState : SerialState :=
  { rx_buf := fun _ => 0, tx_buf := fun _ => 0,
    rx_insert := 0, rx_remove := 0, tx_insert := 0, tx_remove := 0,
    tx_idle := true, last_was_bang := false, tx_buffered_data := false,
    rts_count := 0, uboot_counter := 0, last_byte := 0,
    uboot_silence_mode := false, uboot_silence_counter := 0,
    serial_rx_overflow := 0, serial_tx_overflow := 0,
    heartbeat_requested := false, eeprom_param_request := false,
    led_bootloader := false }

/- ========================  claims  ======================== -/

/-- C1 (code bug): the round-trip property fails on the code.  For
`n = 3`, buffer `[0x80, 0, 0]`, bit index 0 and value 0, the permuted
index is `(0*7)%3 = 0`, so `set_bit` clears bit 0 of byte 0 (leaving
`0x80`), yet `get_bit` returns 1 because the macro tests
`(in[0] >> 0) != 0` — the whole shifted byte — instead of extracting
bit 0.  The spec (and the stated purpose of the interleaver) require
the read-back of the just-written bit value 0.  In addition,
`set_bit` with value 0 at permuted position `k` clobbers every bit
below `k` as well (its mask is `(~1) << k`): writing 0 at bit index 1
of buffer `[0x03, 0, 0]` (permuted index `(1*7)%3 = 1`) zeroes the
whole byte, destroying the value of bit 0. -/
theorem interleave_roundtrip_violation :
    interleave_getbit 3
      (interleave_setbit 3 (fun j => if j = 0 then 128 else 0) 0 0) 0 = 1 ∧
    interleave_getbit 3
      (interleave_setbit 3 (fun j => if j = 0 then 128 else 0) 0 0) 0 ≠ 0 ∧
    interleave_setbit 3 (fun j => if j = 0 then 3 else 0) 1 0 0 = 0 := by
  decide

/-- C2 (code bug): the code does not implement the specified index
formula.  For `n = 3` and `bit_index = 1`, the spec formula gives
`permuted = (1*7) mod 24 = 7`, i.e. bit 7 of byte 0, which is 0 in the
buffer `[0x02, 0, 0]`; the code reduces modulo `n = 3` instead
(`permuted = 1`) and then ORs all bits at positions >= 1, returning
1.  So the code diverges from the claimed formula both in the modulus
(`n`, the byte count, instead of `8n`) and in reading more than the
one selected bit. -/
theorem interleave_getbit_formula_divergence :
    interleave_getbit 3 (fun j => if j = 0 then 2 else 0) 1 = 1 ∧
    spec_interleave_getbit 3 (fun j => if j = 0 then 2 else 0) 1 = 0 := by
  decide

/-- C3 counterexample: for the length class `n = 6` the compiled stride
is `steps[2] = 9` and `gcd(9, 48) = 3`, so the map
`i ↦ (i * 9) mod 48` takes only 16 distinct values on `[0, 48)`, not
`8n = 48` — the claimed bijectivity modulo `8n` fails. -/
theorem stride_not_bijective_mod_8n :
    ((List.range (8 * 6)).map
      (fun i => i * steps.getD (6 / 3) 0 % (8 * 6))).dedup.length ≠ 8 * 6 := by
  decide

/-- Each stride in the table is coprime to `24k + 1`, the bit count the
offline generator (interleave.c lines 206-263, which searches strides
over `n = 1 + 24k` bits) actually used for length class `k`. -/
theorem steps_coprime : ∀ k < 86, Nat.gcd (24 * k + 1) (steps.getD k 0) = 1 := by
  decide

/-- Multiplication by a unit is injective modulo `m`, hence the stride
map enumerates `[0, m)` without repetition. -/
theorem mul_mod_nodup {s m : Nat} (h : Nat.gcd m s = 1) :
    ((List.range m).map (fun i => i * s % m)).Nodup := by
  refine List.Nodup.map_on ?_ (List.nodup_range m)
  intro i hi j hj hij
  have hi' : i < m := List.mem_range.mp hi
  have hj' : j < m := List.mem_range.mp hj
  have hm : i ≡ j [MOD m] := Nat.ModEq.cancel_right_of_coprime h hij
  rwa [Nat.ModEq, Nat.mod_eq_of_lt hi', Nat.mod_eq_of_lt hj'] at hm

/-- C3 amended: the table is bijective modulo `8n + 1` (the generator
searched bit count `1 + 24k`, one more than the payload bit count), so
for each length class `n` in {3, 6, ..., 255} the map
`i ↦ (i * steps[n/3]) mod (8n+1)` takes `8n + 1` distinct values on
`[0, 8n+1)`. -/
theorem stride_bijective_mod_8n_succ (n : Nat) (h3 : n % 3 = 0) (h1 : 3 ≤ n)
    (h2 : n ≤ 255) :
    ((List.range (8 * n + 1)).map
      (fun i => i * steps.getD (n / 3) 0 % (8 * n + 1))).dedup.length = 8 * n + 1 := by
  have hk : n / 3 < 86 := by omega
  have hg := steps_coprime (n / 3) hk
  have h8 : 8 * n + 1 = 24 * (n / 3) + 1 := by omega
  rw [h8]
  rw [List.Nodup.dedup (mul_mod_nodup hg), List.length_map, List.length_range]

/-- Witness for C3 amended at the concrete class `n = 6`. -/
theorem stride_bijective_mod_8n_succ_witness :
    ((List.range (8 * 6 + 1)).map
      (fun i => i * steps.getD (6 / 3) 0 % (8 * 6 + 1))).dedup.length = 8 * 6 + 1 :=
  stride_bijective_mod_8n_succ 6 (by decide) (by decide) (by decide)

/-- C4 counterexample: at the reachable (initial) state
`insert = remove = 0` of the RX ring, `BUF_USED` is 0 but `BUF_FREE`
reports the full capacity 256, not `capacity - used - 1 = 255`; the
sum of the two macros is the capacity, not capacity - 1. -/
theorem ring_free_formula_counterexample :
    BUF_USED RX_BUFF_MAX 0 0 = 0 ∧ BUF_FREE RX_BUFF_MAX 0 0 = 256 ∧
    BUF_FREE RX_BUFF_MAX 0 0 ≠ RX_BUFF_MAX - BUF_USED RX_BUFF_MAX 0 0 - 1 ∧
    BUF_USED RX_BUFF_MAX 0 0 + BUF_FREE RX_BUFF_MAX 0 0 ≠ RX_BUFF_MAX - 1 := by
  decide

/-- C4 amended: for every state of a ring buffer of positive capacity
(in particular RX at 256 and TX at 512) with both indices in range,
`BUF_USED` equals `(insert - remove) mod capacity` as claimed, but
`BUF_FREE` equals `capacity - used` (not `capacity - used - 1`), so
used plus free equals the capacity.  (One slot is still permanently
unusable: `BUF_FULL` fires at `used = capacity - 1`, so the usable
space is one byte less than `BUF_FREE` reports.) -/
theorem ring_accounting_amended (cap ins rem : Nat)
    (hi : ins < cap) (hr : rem < cap) :
    ((BUF_USED cap ins rem : Int) = ((ins : Int) - (rem : Int)) % (cap : Int)) ∧
    BUF_FREE cap ins rem = cap - BUF_USED cap ins rem ∧
    BUF_USED cap ins rem + BUF_FREE cap ins rem = cap := by
  unfold BUF_USED BUF_FREE
  by_cases h : rem ≤ ins
  · simp only [if_pos h]
    refine ⟨?_, by omega, by omega⟩
    rw [Int.emod_eq_of_lt (by omega) (by omega)]
    omega
  · simp only [if_neg h]
    refine ⟨?_, by omega, by omega⟩
    have hrw : ((ins : Int) - (rem : Int)) % (cap : Int)
        = ((ins : Int) - (rem : Int) + (cap : Int) * 1) % (cap : Int) := by
      rw [Int.add_mul_emod_self_left]
    rw [hrw, Int.emod_eq_of_lt (by omega) (by omega)]
    omega

/-- Witness for C4 amended at the RX ring with `insert = 3`,
`remove = 250`. -/
theorem ring_accounting_amended_witness :
    ((BUF_USED 256 3 250 : Int) = ((3 : Int) - (250 : Int)) % (256 : Int)) ∧
    BUF_FREE 256 3 250 = 256 - BUF_USED 256 3 250 ∧
    BUF_USED 256 3 250 + BUF_FREE 256 3 250 = 256 :=
  ring_accounting_amended 256 3 250 (by decide) (by decide)

/-- A state with every escape/flow/silence flag raised, to exhibit what
`serial_init` does not touch. -/
def flagsRaisedState : SerialState :=
  { zeroSerialState with
    last_was_bang := true
    tx_buffered_data := true
    uboot_silence_mode := true
    uboot_silence_counter := 1234
    rts_count := 5 }

/-- C9 counterexample: `serial_init` resets only the four FIFO indices
and the transmit-idle flag; the escape-pending flag, the flush signal,
the silence mode flag and countdown, and the RTS credit counter all
survive a re-init unchanged (their startup values are instead
established separately by `main`), contradicting the claim that every
such flag is back at its initial value after init. -/
theorem serial_init_leaves_flags_counterexample :
    (serial_init flagsRaisedState 57).last_was_bang = true ∧
    (serial_init flagsRaisedState 57).tx_buffered_data = true ∧
    (serial_init flagsRaisedState 57).uboot_silence_mode = true ∧
    (serial_init flagsRaisedState 57).uboot_silence_counter = 1234 ∧
    (serial_init flagsRaisedState 57).rts_count = 5 := by
  decide

/-- C9 amended: after `serial_init` (any speed class, any prior state)
both ring buffers are empty — all four indices are zero — and the
transmitter is marked idle; every other transport and escape flag
(escape-pending, flush signal, RTS credit count, silence mode and
countdown, banner counter, overflow counters) is left unchanged. -/
theorem serial_init_amended (s : SerialState) (speed : Nat) :
    (serial_init s speed).rx_insert = 0 ∧
    (serial_init s speed).rx_remove = 0 ∧
    (serial_init s speed).tx_insert = 0 ∧
    (serial_init s speed).tx_remove = 0 ∧
    (serial_init s speed).tx_idle = true ∧
    (serial_init s speed).last_was_bang = s.last_was_bang ∧
    (serial_init s speed).tx_buffered_data = s.tx_buffered_data ∧
    (serial_init s speed).rts_count = s.rts_count ∧
    (serial_init s speed).uboot_silence_mode = s.uboot_silence_mode ∧
    (serial_init s speed).uboot_silence_counter = s.uboot_silence_counter ∧
    (serial_init s speed).uboot_counter = s.uboot_counter ∧
    (serial_init s speed).serial_rx_overflow = s.serial_rx_overflow ∧
    (serial_init s speed).serial_tx_overflow = s.serial_tx_overflow := by
  refine ⟨rfl, rfl, rfl, rfl, rfl, rfl, rfl, rfl, rfl, rfl, rfl, rfl, rfl⟩

/-- C10 confirmed: reading from an empty RX buffer returns the byte 0
with the state unchanged, and there is also a nonempty buffer state
whose read returns 0 — so the return value alone cannot distinguish
"empty" from "received a zero byte". -/
theorem serial_read_empty_returns_zero :
    (∀ s : SerialState, s.rx_insert = s.rx_remove → serial_read s = (0, s)) ∧
    (∃ s : SerialState, s.rx_insert ≠ s.rx_remove ∧ (serial_read s).1 = 0) := by
  constructor
  · intro s h
    simp [serial_read, BUF_EMPTY, h]
  · exact ⟨{ zeroSerialState with rx_insert := 1 }, by decide, by decide⟩

/-- Witness for C10 at the all-zero initial state. -/
theorem serial_read_empty_returns_zero_witness :
    serial_read zeroSerialState = (0, zeroSerialState) :=
  serial_read_empty_returns_zero.1 zeroSerialState rfl

/-- `_serial_write` never touches the escape-pending flag. -/
theorem swi_last_was_bang (s : SerialState) (c : Nat) :
    (serial_write_internal s c).last_was_bang = s.last_was_bang := by
  unfold serial_write_internal
  dsimp only
  repeat' split
  all_goals rfl

/-- `putchar_r` never touches the escape-pending flag. -/
theorem putchar_r_last_was_bang (s : SerialState) (c : Nat) :
    (putchar_r s c).1.last_was_bang = s.last_was_bang := by
  unfold putchar_r
  split <;> simp [swi_last_was_bang]

/-- A state whose RX ring is full (`BUF_NEXT 256 255 = 0 = remove`). -/
def fullRxState : SerialState := { zeroSerialState with rx_insert := 255 }

/-- C5 counterexample: when the RX ring is full, feeding the literal
escape sequence `"!."` queues nothing (the literal byte is dropped and
the saturating RX overflow counter increments instead), so the claim
that exactly one literal byte is queued for every pending-clear
starting state fails. -/
theorem escape_literal_dropped_when_full :
    (serial_rx_feed fullRxState [33, 46]).2.queued = [] ∧
    (serial_rx_feed fullRxState [33, 46]).1.serial_rx_overflow = 1 := by
  decide

/-- C5 amended: from any state with the escape-pending flag clear,
(a) feeding `"!!"` queues nothing to RX and raises the flush signal
exactly once; (b) feeding `"!."` queues exactly the one literal byte
`!` and dispatches no command, provided the RX ring is not full —
(c) if it is full nothing is queued (the byte is dropped, see the
counterexample); (d) feeding `!` followed by a byte that is no command
code queues nothing, dispatches nothing, and emits exactly one error
indicator byte `E` on the outbound stream.  In all cases the
escape-pending flag ends clear. -/
theorem escape_protocol_amended (s : SerialState) (c : Nat)
    (hb : s.last_was_bang = false)
    (h1 : c ≠ 33) (h2 : c ≠ 77) (h3 : c ≠ 72) (h4 : c ≠ 76) (h5 : c ≠ 80)
    (h6 : c ≠ 66) (h7 : c ≠ 67) (h8 : ¬(97 ≤ c ∧ c ≤ 122))
    (h9 : ¬(48 ≤ c ∧ c ≤ 57)) (h10 : c ≠ 68) (h11 : c ≠ 69) (h12 : c ≠ 73)
    (h13 : c ≠ 70) (h14 : c ≠ 89) (h15 : c ≠ 90) (h16 : c ≠ 82) (h17 : c ≠ 86)
    (h18 : c ≠ 46) :
    ((serial_rx_feed s [33, 33]).2.queued = [] ∧
     (serial_rx_feed s [33, 33]).2.flushes = 1 ∧
     (serial_rx_feed s [33, 33]).1.last_was_bang = false) ∧
    (BUF_FULL RX_BUFF_MAX s.rx_insert s.rx_remove = false →
      (serial_rx_feed s [33, 46]).2.queued = [33] ∧
      (serial_rx_feed s [33, 46]).2.actions = [] ∧
      (serial_rx_feed s [33, 46]).2.flushes = 0 ∧
      (serial_rx_feed s [33, 46]).1.last_was_bang = false) ∧
    (BUF_FULL RX_BUFF_MAX s.rx_insert s.rx_remove = true →
      (serial_rx_feed s [33, 46]).2.queued = []) ∧
    ((serial_rx_feed s [33, c]).2.queued = [] ∧
     (serial_rx_feed s [33, c]).2.emitted = [69] ∧
     (serial_rx_feed s [33, c]).2.actions = [] ∧
     (serial_rx_feed s [33, c]).2.flushes = 0 ∧
     (serial_rx_feed s [33, c]).1.last_was_bang = false) := by
  have h19 : c ≠ 48 := by omega
  refine ⟨?_, ?_, ?_, ?_⟩
  · by_cases hs : s.uboot_silence_mode = true <;>
      simp [serial_rx_feed, serial_rx_byte, banner_update, escape_step,
        RxEffects.append, hb, hs]
  · intro hfull
    by_cases hs : s.uboot_silence_mode = true <;>
      simp [serial_rx_feed, serial_rx_byte, banner_update, escape_step,
        rx_queue_byte, RxEffects.append, hb, hs, hfull]
  · intro hfull
    by_cases hs : s.uboot_silence_mode = true <;>
      by_cases ho : s.serial_rx_overflow = 0xFFFF <;>
        simp [serial_rx_feed, serial_rx_byte, banner_update, escape_step,
          rx_queue_byte, RxEffects.append, hb, hs, ho, hfull]
  · by_cases hs : s.uboot_silence_mode = true <;>
      simp [serial_rx_feed, serial_rx_byte, banner_update, escape_step,
        rx_queue_byte, putchar_r, RxEffects.append, hb, hs, h1, h2, h3, h4,
        h5, h6, h7, h8, h9, h10, h11, h12, h13, h14, h15, h16, h17, h18, h19,
        swi_last_was_bang]

/-- Witness for C5 amended at the all-zero state with the unrecognized
byte `#` (35). -/
theorem escape_protocol_amended_witness :
    ((serial_rx_feed zeroSerialState [33, 33]).2.queued = [] ∧
     (serial_rx_feed zeroSerialState [33, 33]).2.flushes = 1 ∧
     (serial_rx_feed zeroSerialState [33, 33]).1.last_was_bang = false) ∧
    (BUF_FULL RX_BUFF_MAX zeroSerialState.rx_insert zeroSerialState.rx_remove = false →
      (serial_rx_feed zeroSerialState [33, 46]).2.queued = [33] ∧
      (serial_rx_feed zeroSerialState [33, 46]).2.actions = [] ∧
      (serial_rx_feed zeroSerialState [33, 46]).2.flushes = 0 ∧
      (serial_rx_feed zeroSerialState [33, 46]).1.last_was_bang = false) ∧
    (BUF_FULL RX_BUFF_MAX zeroSerialState.rx_insert zeroSerialState.rx_remove = true →
      (serial_rx_feed zeroSerialState [33, 46]).2.queued = []) ∧
    ((serial_rx_feed zeroSerialState [33, 35]).2.queued = [] ∧
     (serial_rx_feed zeroSerialState [33, 35]).2.emitted = [69] ∧
     (serial_rx_feed zeroSerialState [33, 35]).2.actions = [] ∧
     (serial_rx_feed zeroSerialState [33, 35]).2.flushes = 0 ∧
     (serial_rx_feed zeroSerialState [33, 35]).1.last_was_bang = false) :=
  escape_protocol_amended zeroSerialState 35 rfl (by decide) (by decide)
    (by decide) (by decide) (by decide) (by decide) (by decide) (by decide)
    (by decide) (by decide) (by decide) (by decide) (by decide) (by decide)
    (by decide) (by decide) (by decide) (by decide)

theorem serial_rx_feed_cons_fst (s : SerialState) (c : Nat) (cs : List Nat) :
    (serial_rx_feed s (c :: cs)).1 = (serial_rx_feed (serial_rx_byte s c).1 cs).1 := rfl

theorem banner_pair_step (s : SerialState) (c : Nat)
    (hb : s.last_was_bang = false)
    (hp : (s.last_byte = 134 ∧ c = 152) ∨ (s.last_byte = 152 ∧ c = 134)) :
    (serial_rx_byte s c).1.last_was_bang = false ∧
    (serial_rx_byte s c).1.last_byte = c ∧
    (s.uboot_counter + 1 ≥ 80 →
       (serial_rx_byte s c).1.uboot_silence_mode = true ∧
       (serial_rx_byte s c).1.uboot_counter = 0) ∧
    (s.uboot_counter + 1 < 80 →
       (serial_rx_byte s c).1.uboot_silence_mode = s.uboot_silence_mode ∧
       (serial_rx_byte s c).1.uboot_counter = s.uboot_counter + 1) := by
  have hc : c = 152 ∨ c = 134 := by
    rcases hp with ⟨_, h⟩ | ⟨_, h⟩
    · exact Or.inl h
    · exact Or.inr h
  by_cases h80 : s.uboot_counter + 1 ≥ 80 <;>
    rcases hc with rfl | rfl <;>
      simp [serial_rx_byte, banner_update, escape_step, rx_queue_byte, hb,
        hp, h80] <;>
      (repeat' split) <;> simp_all

theorem banner_feed_invariant (k : Nat) :
    ∀ (s : SerialState) (a b : Nat),
      ((a = 152 ∧ b = 134) ∨ (a = 134 ∧ b = 152)) →
      s.last_was_bang = false → s.last_byte = b →
      ((serial_rx_feed s (altList k a b)).1.uboot_silence_mode = true ∨
       ((serial_rx_feed s (altList k a b)).1.uboot_counter = s.uboot_counter + k ∧
        (serial_rx_feed s (altList k a b)).1.uboot_silence_mode = s.uboot_silence_mode ∧
        (k = 0 ∨ s.uboot_counter + k < 80))) := by
  induction k with
  | zero =>
    intro s a b _ _ _
    right
    simp [altList, serial_rx_feed]
  | succ k ih =>
    intro s a b hab hb hlb
    have hp : (s.last_byte = 134 ∧ a = 152) ∨ (s.last_byte = 152 ∧ a = 134) := by
      rcases hab with ⟨ha, hbv⟩ | ⟨ha, hbv⟩
      · exact Or.inl ⟨hlb.trans hbv, ha⟩
      · exact Or.inr ⟨hlb.trans hbv, ha⟩
    obtain ⟨hb1, hlb1, htrig, hnot⟩ := banner_pair_step s a hb hp
    have hab1 : (b = 152 ∧ a = 134) ∨ (b = 134 ∧ a = 152) := by
      rcases hab with ⟨ha, hbv⟩ | ⟨ha, hbv⟩
      · exact Or.inr ⟨hbv, ha⟩
      · exact Or.inl ⟨hbv, ha⟩
    have halt : altList (k + 1) a b = a :: altList k b a := rfl
    rw [halt, serial_rx_feed_cons_fst]
    have hrec := ih (serial_rx_byte s a).1 b a hab1 hb1 hlb1
    by_cases h80 : s.uboot_counter + 1 ≥ 80
    · obtain ⟨hsil, _⟩ := htrig h80
      rcases hrec with h | ⟨_, h2, _⟩
      · exact Or.inl h
      · exact Or.inl (h2.trans hsil)
    · have h80' : s.uboot_counter + 1 < 80 := by omega
      obtain ⟨hsil, hcnt⟩ := hnot h80'
      rcases hrec with h | ⟨h1, h2, h3⟩
      · exact Or.inl h
      · right
        refine ⟨by omega, h2.trans hsil, by omega⟩

/-- A state in silence mode, banner counter idle. -/
def silencedState : SerialState := { zeroSerialState with uboot_silence_mode := true }

/-- A silenced state whose previous byte was `0x86`, ready to receive
the alternating banner pattern. -/
def silenceBannerState : SerialState :=
  { zeroSerialState with last_byte := 134, uboot_silence_mode := true }

/-- C7 counterexample: the block write `serial_write_buf` performs no
silence-mode check (unlike the single-byte `serial_write`), so with
silence mode active a one-byte block write still enqueues its byte
into the TX ring. -/
theorem silence_block_write_counterexample :
    silencedState.uboot_silence_mode = true ∧
    (serial_write_buf silencedState [7]).tx_insert = 1 ∧
    (serial_write_buf silencedState [7]).tx_buf 0 = 7 := by
  decide

/-- C7 amended: (a) after 80 consecutive received bytes each extending
the alternating `0x86`/`0x98` boot-banner pattern, silence mode is
active (whatever the prior banner count or silence flag); (b) while
silence mode is active the single-byte write refuses every byte and
leaves the state untouched — but the block write is not suppressed
(see the counterexample); (c) a subsequently received escape byte `!`
clears silence mode and its countdown immediately. -/
theorem silence_mode_amended (s : SerialState) :
    (s.last_was_bang = false → s.last_byte = 134 →
      (serial_rx_feed s (altList 80 152 134)).1.uboot_silence_mode = true) ∧
    (s.uboot_silence_mode = true → ∀ c, serial_write s c = (false, s)) ∧
    (s.uboot_silence_mode = true →
      (serial_rx_byte s 33).1.uboot_silence_mode = false ∧
      (serial_rx_byte s 33).1.uboot_silence_counter = 0) := by
  refine ⟨?_, ?_, ?_⟩
  · intro hb hlb
    have h := banner_feed_invariant 80 s 152 134 (Or.inl ⟨rfl, rfl⟩) hb hlb
    rcases h with h | ⟨_, _, h3⟩
    · exact h
    · rcases h3 with h3 | h3 <;> omega
  · intro hs c
    simp [serial_write, hs]
  · intro hs
    by_cases hb : s.last_was_bang = true <;>
      simp [serial_rx_byte, banner_update, escape_step, hs, hb]

/-- Witness for C7 amended at a concrete silenced state primed with a
previous banner byte. -/
theorem silence_mode_amended_witness :
    (serial_rx_feed silenceBannerState (altList 80 152 134)).1.uboot_silence_mode = true ∧
    serial_write silenceBannerState 7 = (false, silenceBannerState) ∧
    ((serial_rx_byte silenceBannerState 33).1.uboot_silence_mode = false ∧
     (serial_rx_byte silenceBannerState 33).1.uboot_silence_counter = 0) :=
  ⟨(silence_mode_amended silenceBannerState).1 rfl rfl,
   (silence_mode_amended silenceBannerState).2.1 rfl 7,
   (silence_mode_amended silenceBannerState).2.2 rfl⟩

/-- `BUF_FREE` always reports between 1 and `cap` when both indices are
in range (it never reports 0: the one-slot-reserved convention is not
reflected in the macro). -/
theorem BUF_FREE_bounds (cap ins rem : Nat) (hi : ins < cap) (hr : rem < cap) :
    1 ≤ BUF_FREE cap ins rem ∧ BUF_FREE cap ins rem ≤ cap := by
  unfold BUF_FREE
  split <;> omega

/-- C6 amended: `serial_write_buf` accepts exactly
`min(count, reported free space)` bytes — the prefix of the input —
advancing the insert index by that amount and writing those bytes at
the successive ring positions; it never waits; and it increments the
saturating TX-overflow counter once per truncating call, not once per
truncated byte. -/
theorem serial_write_buf_amended (s : SerialState) (data : List Nat)
    (hi : s.tx_insert < 512) (hr : s.tx_remove < 512) (hlen : data.length ≤ 255) :
    (serial_write_buf s data).tx_insert
        = (s.tx_insert + min data.length (serial_write_space s)) % 512 ∧
    (serial_write_buf s data).tx_remove = s.tx_remove ∧
    (∀ k, k < min data.length (serial_write_space s) →
      (serial_write_buf s data).tx_buf ((s.tx_insert + k) % 512) = data.getD k 0) ∧
    (serial_write_buf s data).serial_tx_overflow
        = (if data.length > serial_write_space s then
             (if s.serial_tx_overflow ≠ 0xFFFF then s.serial_tx_overflow + 1
              else s.serial_tx_overflow)
           else s.serial_tx_overflow) := by
  have hsp := BUF_FREE_bounds TX_BUFF_MAX s.tx_insert s.tx_remove hi hr
  have hspace : serial_write_space s = BUF_FREE TX_BUFF_MAX s.tx_insert s.tx_remove := rfl
  unfold serial_write_buf
  dsimp only
  by_cases h0 : data.length = 0
  · rw [if_pos h0]
    refine ⟨?_, rfl, ?_, ?_⟩
    · simp [h0, Nat.mod_eq_of_lt hi]
    · intro k hk
      simp [h0] at hk
    · have hns : ¬ data.length > serial_write_space s := by omega
      simp [hns]
  · rw [if_neg h0]
    set space := serial_write_space s with hsdef
    have hcnt : (if data.length > space then space else data.length)
        = min data.length space := by
      rw [Nat.min_def]
      split <;> split <;> omega
    rw [hcnt]
    set count := min data.length space with hcdef
    have hc1 : count ≤ space := Nat.min_le_right _ _
    have hc2 : count ≤ data.length := Nat.min_le_left _ _
    have hc255 : count ≤ 255 := by omega
    have hsle : space ≤ 512 := by rw [hsdef, hspace] at *; exact hsp.2
    have hTX : TX_BUFF_MAX = 512 := rfl
    rw [hTX]
    by_cases hw : count > 512 - s.tx_insert
    · rw [if_pos hw]
      have hrest : count - (512 - s.tx_insert) > 0 := by omega
      simp only [if_pos hrest]
      refine ⟨by omega, trivial, ?_, trivial⟩
      intro k hk
      by_cases hkn : k < 512 - s.tx_insert
      · have hmod : (s.tx_insert + k) % 512 = s.tx_insert + k := by omega
        rw [hmod, if_neg (by omega), if_pos (by omega)]
        congr 1
        omega
      · have hmod : (s.tx_insert + k) % 512 = k - (512 - s.tx_insert) := by omega
        rw [hmod, if_pos (by omega)]
        congr 1
        omega
    · rw [if_neg hw]
      have hrest : ¬ (count - count > 0) := by omega
      simp only [if_neg hrest]
      refine ⟨?_, trivial, ?_, trivial⟩
      · by_cases hic : s.tx_insert + count ≥ 512
        · rw [if_pos hic]
          omega
        · rw [if_neg hic]
          omega
      intro k hk
      have hmod : (s.tx_insert + k) % 512 = s.tx_insert + k := by omega
      rw [hmod, if_pos (by omega)]
      congr 1
      omega

/-- A TX ring with 511 of 512 slots used: `BUF_FREE` reports 1. -/
def nearFullTxState : SerialState := { zeroSerialState with tx_insert := 511 }

/-- C6 counterexample: with one reported free slot, writing a 3-byte
block truncates two bytes but raises the TX-overflow counter by one,
not by two as the claim (one increment per truncated byte) demands. -/
theorem tx_overflow_per_call_counterexample :
    serial_write_space nearFullTxState = 1 ∧
    (serial_write_buf nearFullTxState [1, 2, 3]).serial_tx_overflow = 1 ∧
    (serial_write_buf nearFullTxState [1, 2, 3]).serial_tx_overflow ≠
      nearFullTxState.serial_tx_overflow + 2 := by
  decide

/-- Witness for C6 amended: a 3-byte block into the empty TX ring. -/
theorem serial_write_buf_amended_witness :
    (serial_write_buf zeroSerialState [1, 2, 3]).tx_insert
        = (zeroSerialState.tx_insert +
           min ([1, 2, 3] : List Nat).length (serial_write_space zeroSerialState)) % 512 ∧
    (serial_write_buf zeroSerialState [1, 2, 3]).tx_remove = zeroSerialState.tx_remove ∧
    (∀ k, k < min ([1, 2, 3] : List Nat).length (serial_write_space zeroSerialState) →
      (serial_write_buf zeroSerialState [1, 2, 3]).tx_buf
          ((zeroSerialState.tx_insert + k) % 512) = ([1, 2, 3] : List Nat).getD k 0) ∧
    (serial_write_buf zeroSerialState [1, 2, 3]).serial_tx_overflow
        = (if ([1, 2, 3] : List Nat).length > serial_write_space zeroSerialState then
             (if zeroSerialState.serial_tx_overflow ≠ 0xFFFF then
                zeroSerialState.serial_tx_overflow + 1
              else zeroSerialState.serial_tx_overflow)
           else zeroSerialState.serial_tx_overflow) :=
  serial_write_buf_amended zeroSerialState [1, 2, 3] (by decide) (by decide) (by decide)

/-- `BUF_USED` never exceeds `cap - 1` for in-range indices. -/
theorem BUF_USED_bounds (cap ins rem : Nat) (hi : ins < cap) (hr : rem < cap) :
    BUF_USED cap ins rem ≤ cap - 1 := by
  unfold BUF_USED
  split <;> omega

/-- C8 confirmed: `serial_read_buf` is atomic.  When fewer than `count`
bytes are available it fails and leaves the state (both indices and
the contents) untouched; otherwise it succeeds, returns exactly the
`count` oldest bytes in FIFO order, and advances only the remove
index by `count` (mod 256). -/
theorem serial_read_buf_atomic (s : SerialState) (count : Nat)
    (hi : s.rx_insert < 256) (hr : s.rx_remove < 256) :
    (count > serial_read_available s → serial_read_buf s count = (false, [], s)) ∧
    (count ≤ serial_read_available s →
      (serial_read_buf s count).1 = true ∧
      (serial_read_buf s count).2.1
          = (List.range count).map (fun k => s.rx_buf ((s.rx_remove + k) % 256)) ∧
      (serial_read_buf s count).2.2 = { s with rx_remove := (s.rx_remove + count) % 256 }) := by
  have hub := BUF_USED_bounds RX_BUFF_MAX s.rx_insert s.rx_remove hi hr
  have hused : serial_read_available s = BUF_USED RX_BUFF_MAX s.rx_insert s.rx_remove := rfl
  have hRX : RX_BUFF_MAX = 256 := rfl
  constructor
  · intro h
    unfold serial_read_buf
    rw [if_pos h]
  · intro h
    rw [hused, hRX] at h
    rw [hRX] at hub
    have hcle : count ≤ 255 := by omega
    unfold serial_read_buf
    rw [hused, hRX]
    rw [if_neg (by omega)]
    by_cases hwrap : count > 256 - s.rx_remove
    · rw [if_pos hwrap]
      have hrest : count - (256 - s.rx_remove) > 0 := by omega
      rw [if_pos hrest]
      refine ⟨rfl, ?_, ?_⟩
      · refine List.ext_getElem ?_ ?_
        · simp [List.length_append, List.length_map, List.length_range]
          omega
        · intro i h1 h2
          simp only [List.length_append, List.length_map, List.length_range] at h1 h2
          by_cases hi1 : i < 256 - s.rx_remove
          · rw [List.getElem_append_left (by simpa using hi1)]
            simp only [List.getElem_map, List.getElem_range]
            congr 1
            omega
          · rw [List.getElem_append_right (by simpa using hi1)]
            simp only [List.getElem_map, List.getElem_range, List.length_map,
              List.length_range]
            congr 1
            omega
      · have hrw : count - (256 - s.rx_remove) = (s.rx_remove + count) % 256 := by omega
        rw [hrw]
    · rw [if_neg hwrap]
      have hrest : ¬ (count - count > 0) := by omega
      rw [if_neg hrest]
      refine ⟨rfl, ?_, ?_⟩
      · refine List.map_congr_left ?_
        intro a ha
        have : a < count := List.mem_range.mp ha
        congr 1
        omega
      · have hrw : (if s.rx_remove + count ≥ 256 then s.rx_remove + count - 256
            else s.rx_remove + count) = (s.rx_remove + count) % 256 := by
          split <;> omega
        rw [hrw]

/-- An RX ring holding 4 bytes that wrap around the end of the array. -/
def readWrapState : SerialState :=
  { zeroSerialState with rx_buf := fun j => j + 10, rx_insert := 2, rx_remove := 254 }

/-- Witness for C8 at a wrapping 4-byte read. -/
theorem serial_read_buf_atomic_witness :
    (4 > serial_read_available readWrapState →
      serial_read_buf readWrapState 4 = (false, [], readWrapState)) ∧
    (4 ≤ serial_read_available readWrapState →
      (serial_read_buf readWrapState 4).1 = true ∧
      (serial_read_buf readWrapState 4).2.1
          = (List.range 4).map (fun k => readWrapState.rx_buf ((readWrapState.rx_remove + k) % 256)) ∧
      (serial_read_buf readWrapState 4).2.2
          = { readWrapState with rx_remove := (readWrapState.rx_remove + 4) % 256 }) :=
  serial_read_buf_atomic readWrapState 4 (by decide) (by decide)
